import Mathlib

/-!
# Verification of the ZMK runtime input processor core

Shallow embedding of `src/pointing/input_processor_runtime.c` (the runtime
configurable input processor: pipeline stages, keybind dispatcher, axis snap,
rotation, scaling, and the public setter/getter control surface), together
with proofs settling the frozen claims about it.

Machine integers are modelled as `Int`/`Nat` with explicit wrapping where the
C code stores into an `int16_t` (helper `i16`).  C integer division on signed
operands truncates towards zero, which is `Int.tdiv`/`Int.tmod`.  The
double-precision trigonometry of `update_rotation_values` and the keybind
`atan2` are modelled over `ℝ` with the cast-to-integer truncation `truncz`;
all angles used by the claims (0°, 45°, 90°, cardinal directions) are values
on which the double computation agrees with the exact real one.
-/

/-- Wrap an integer to the `int16_t` range `[-32768, 32767]`, the effect of a
C store into an `int16_t` (two's complement). -/
def i16 (z : ℤ) : ℤ := (z + 32768) % 65536 - 32768

/-- C cast of a real (`double`) value to an integer type: truncation towards
zero.  Used for `(int32_t)(cos(...) * 1000.0)` in `update_rotation_values`. -/
noncomputable def truncz (x : ℝ) : ℤ := if 0 ≤ x then ⌊x⌋ else -⌊-x⌋

/-- Input event codes from `input-event-codes.h` used by the code remap
stage (`INPUT_REL_X/Y/HWHEEL/WHEEL`). -/
def INPUT_REL_X : ℕ := 0
def INPUT_REL_Y : ℕ := 1
def INPUT_REL_HWHEEL : ℕ := 6
def INPUT_REL_WHEEL : ℕ := 8

/-- Axis snap modes (`AXIS_SNAP_MODE_NONE/X/Y`). -/
def AXIS_SNAP_MODE_NONE : ℕ := 0
def AXIS_SNAP_MODE_X : ℕ := 1
def AXIS_SNAP_MODE_Y : ℕ := 2

/-- `MAX_KEYBIND_BEHAVIORS` from the source. -/
def MAX_KEYBIND_BEHAVIORS : ℕ := 8

/-- An input event (`struct input_event`): kind tag, axis code, signed
16-bit delta. -/
structure Event where
  type : ℕ
  code : ℕ
  value : ℤ
  deriving Repr, DecidableEq

/-- The immutable parts of `struct runtime_processor_config` that the
pipeline logic reads (device-tree initials are not needed by the claims;
of the keybind behavior array only its length is read by the logic). -/
structure Config where
  type : ℕ
  x_codes : List ℕ
  y_codes : List ℕ
  keybind_behaviors_len : ℕ
  deriving Repr, DecidableEq

/-- External keymap environment: how many layers the keymap has and which
layer indices are currently active (composition of
`zmk_keymap_layer_index_to_id` validity and `zmk_keymap_layer_active`). -/
structure Env where
  layersLen : ℕ
  layerIdxActive : ℕ → Bool

/-- `struct runtime_processor_data`: every current and persistent tunable
plus the runtime accumulators.  Work-queue handles are modelled as scheduling
flags in the pipeline output instead. -/
structure State where
  scale_multiplier : ℕ
  scale_divisor : ℕ
  rotation_degrees : ℤ
  persistent_scale_multiplier : ℕ
  persistent_scale_divisor : ℕ
  persistent_rotation_degrees : ℤ
  cos_val : ℤ
  sin_val : ℤ
  last_x : ℤ
  last_y : ℤ
  has_x : Bool
  has_y : Bool
  temp_layer_enabled : Bool
  temp_layer_layer : ℕ
  temp_layer_activation_delay_ms : ℕ
  temp_layer_deactivation_delay_ms : ℕ
  persistent_temp_layer_enabled : Bool
  persistent_temp_layer_layer : ℕ
  persistent_temp_layer_activation_delay_ms : ℕ
  persistent_temp_layer_deactivation_delay_ms : ℕ
  active_layers : ℕ
  persistent_active_layers : ℕ
  axis_snap_mode : ℕ
  axis_snap_threshold : ℕ
  axis_snap_timeout_ms : ℕ
  persistent_axis_snap_mode : ℕ
  persistent_axis_snap_threshold : ℕ
  persistent_axis_snap_timeout_ms : ℕ
  axis_snap_cross_axis_accum : ℤ
  axis_snap_last_decay_timestamp : ℤ
  xy_to_scroll_enabled : Bool
  xy_swap_enabled : Bool
  persistent_xy_to_scroll_enabled : Bool
  persistent_xy_swap_enabled : Bool
  x_invert : Bool
  y_invert : Bool
  persistent_x_invert : Bool
  persistent_y_invert : Bool
  keybind_enabled : Bool
  keybind_behavior_count : ℕ
  keybind_degree_offset : ℕ
  keybind_tick : ℕ
  persistent_keybind_enabled : Bool
  persistent_keybind_behavior_count : ℕ
  persistent_keybind_degree_offset : ℕ
  persistent_keybind_tick : ℕ
  keybind_x_accum : ℤ
  keybind_y_accum : ℤ
  temp_layer_layer_active : Bool
  temp_layer_keep_active : Bool
  last_input_timestamp : ℤ
  last_keypress_timestamp : ℤ
  deriving Repr, DecidableEq

/-- `update_rotation_values`: precompute `cos·1000`, `sin·1000` as integers;
a zero angle short-circuits to `(1000, 0)`. -/
noncomputable def update_rotation_values (degrees : ℤ) : ℤ × ℤ :=
  if degrees = 0 then (1000, 0)
  else
    (truncz (Real.cos ((degrees : ℝ) * Real.pi / 180) * 1000),
     truncz (Real.sin ((degrees : ℝ) * Real.pi / 180) * 1000))

/-- `code_idx` succeeds iff the code appears in the axis code list (only the
sign of the C return value is ever used). -/
def code_matches (code : ℕ) (codes : List ℕ) : Bool := codes.contains code

/-- `is_processor_active_for_current_layers`: a zero mask means always
active; otherwise some set bit below `ZMK_KEYMAP_LAYERS_LEN` must name a
currently active layer. -/
def is_processor_active_for_current_layers (env : Env) (mask : ℕ) : Bool :=
  mask = 0 ||
    (List.range env.layersLen).any (fun i => mask.testBit i && env.layerIdxActive i)

/-- Result of the driver `handle_event` callback: `ZMK_INPUT_PROC_CONTINUE`
or `ZMK_INPUT_PROC_STOP`. -/
inductive ProcResult where
  | continue
  | stop
  deriving Repr, DecidableEq

/-- Output of `process_keybind`: whether the event was consumed, the updated
state, and — when the tick threshold fired — the accumulator pair handed to
the direction selection (the external behavior invocation itself has no
effect on processor state). -/
structure KeybindOut where
  consumed : Bool
  st : State
  fired : Option (ℤ × ℤ)
  deriving Repr, DecidableEq

/-- The effective behavior count: `keybind_behavior_count` clamped to the
configured behavior list length and to `MAX_KEYBIND_BEHAVIORS`. -/
def effective_behavior_count (cfg : Config) (s : State) : ℕ :=
  min (min s.keybind_behavior_count cfg.keybind_behaviors_len) MAX_KEYBIND_BEHAVIORS

/-- `process_keybind` (state part): enablement gate, accumulate the delta on
the matching axis, compare squared distance with the squared tick, and reset
the accumulators on fire.  Consumes the event whenever keybind is enabled. -/
def process_keybind (cfg : Config) (s : State) (is_x : Bool) (value : ℤ) : KeybindOut :=
  if !s.keybind_enabled || s.keybind_behavior_count == 0 || cfg.keybind_behaviors_len == 0 then
    ⟨false, s, none⟩
  else
    let s1 := if is_x then { s with keybind_x_accum := s.keybind_x_accum + value }
              else { s with keybind_y_accum := s.keybind_y_accum + value }
    let total_movement_sq := s1.keybind_x_accum * s1.keybind_x_accum +
                             s1.keybind_y_accum * s1.keybind_y_accum
    let tick_threshold_sq := (s1.keybind_tick : ℤ) * (s1.keybind_tick : ℤ)
    if total_movement_sq < tick_threshold_sq then ⟨true, s1, none⟩
    else ⟨true, { s1 with keybind_x_accum := 0, keybind_y_accum := 0 },
          some (s1.keybind_x_accum, s1.keybind_y_accum)⟩

/-- C `atan2(y, x)`: angle of the vector `(x, y)` in `(-π, π]`. -/
noncomputable def atan2 (y x : ℝ) : ℝ :=
  if 0 < x then Real.arctan (y / x)
  else if x < 0 then
    (if 0 ≤ y then Real.arctan (y / x) + Real.pi else Real.arctan (y / x) - Real.pi)
  else
    (if 0 < y then Real.pi / 2 else if y < 0 then -(Real.pi / 2) else 0)

/-- The direction selection of `process_keybind`: angle of the accumulated
vector in degrees normalised to `[0, 360)`, shifted by the degree offset,
and mapped to a behavior index by half-segment-centred flooring. -/
noncomputable def keybind_direction (behavior_count : ℕ) (degree_offset : ℕ)
    (x_accum y_accum : ℤ) : ℕ :=
  let angle_deg0 := atan2 (y_accum : ℝ) (x_accum : ℝ) * 180 / Real.pi
  let angle_deg1 := if angle_deg0 < 0 then angle_deg0 + 360 else angle_deg0
  let angle_deg := if angle_deg1 + (degree_offset : ℝ) ≥ 360 then
                     angle_deg1 + (degree_offset : ℝ) - 360
                   else angle_deg1 + (degree_offset : ℝ)
  if behavior_count = 1 then 0
  else
    let segment_size := 360 / (behavior_count : ℝ)
    let adjusted_angle0 := angle_deg + segment_size / 2
    let adjusted_angle := if adjusted_angle0 ≥ 360 then adjusted_angle0 - 360
                          else adjusted_angle0
    (Nat.floor (adjusted_angle / segment_size)) % behavior_count

/-- `scale_val`: rational scaling with remainder carry, in the `int16_t`
arithmetic of the C code (the intermediate `value·mul` is an `int16_t` and
can wrap).  Returns the scaled value and the updated remainder. -/
def scale_val (value : ℤ) (mul div : ℕ) (remainder : Option ℤ) : ℤ × Option ℤ :=
  if mul == 0 || div == 0 then (value, remainder)
  else
    let value_mul0 := i16 (value * i16 (mul : ℤ))
    let value_mul := match remainder with
      | some r => i16 (value_mul0 + r)
      | none => value_mul0
    let scaled := i16 (value_mul.tdiv (i16 (div : ℤ)))
    let remainder' := match remainder with
      | some _ => some (i16 (value_mul - scaled * i16 (div : ℤ)))
      | none => none
    (scaled, remainder')

/-- The rotation stage of `runtime_processor_handle_event` (run only when
`rotation_degrees ≠ 0`): record the axis value, and when the opposite axis
is pending emit the rotated component, else emit 0. -/
def rotation_stage (s : State) (is_x : Bool) (value : ℤ) : ℤ × State :=
  if is_x then
    let s1 := { s with last_x := value, has_x := true }
    if s1.has_y then
      (i16 ((s1.last_x * s1.cos_val - s1.last_y * s1.sin_val).tdiv 1000),
       { s1 with has_y := false })
    else (0, s1)
  else
    let s1 := { s with last_y := value, has_y := true }
    if s1.has_x then
      (i16 ((s1.last_x * s1.sin_val + s1.last_y * s1.cos_val).tdiv 1000),
       { s1 with has_x := false })
    else (0, s1)

/-- The decay step of the axis snap stage: after `elapsed / 50` whole decay
periods, move the cross-axis accumulator towards zero by
`max(1, threshold / (timeout_ms / 50))` per period. -/
def axis_snap_decay (s : State) (now : ℤ) : State :=
  if s.axis_snap_timeout_ms > 0 && s.axis_snap_last_decay_timestamp > 0 then
    let elapsed := now - s.axis_snap_last_decay_timestamp
    if elapsed > 0 then
      let decay_periods := elapsed.tdiv 50
      if decay_periods > 0 then
        let decay_per_50ms0 := i16 ((s.axis_snap_threshold / (s.axis_snap_timeout_ms / 50) : ℕ) : ℤ)
        let decay_per_50ms := if decay_per_50ms0 < 1 then 1 else decay_per_50ms0
        let total_decay := i16 (decay_per_50ms * decay_periods)
        let acc := s.axis_snap_cross_axis_accum
        let acc' :=
          if acc > 0 then
            (let a1 := i16 (acc - total_decay); if a1 < 0 then 0 else a1)
          else if acc < 0 then
            (let a1 := i16 (acc + total_decay); if a1 > 0 then 0 else a1)
          else acc
        { s with axis_snap_cross_axis_accum := acc',
                 axis_snap_last_decay_timestamp := now }
      else s
    else s
  else s

/-- The axis snap stage: on a cross-axis event (after decay) update the
accumulator — absolute growth when already unsnapped, signed sum when
snapped — cap it at twice the threshold, and zero the event value while the
absolute accumulator is below the threshold. -/
def axis_snap_stage (s : State) (is_x : Bool) (value : ℤ) (now : ℤ) : ℤ × State :=
  if s.axis_snap_mode != AXIS_SNAP_MODE_NONE && value != 0 then
    let s1 := axis_snap_decay s now
    let is_snapped_axis := (s1.axis_snap_mode == AXIS_SNAP_MODE_X && is_x) ||
                           (s1.axis_snap_mode == AXIS_SNAP_MODE_Y && !is_x)
    if is_snapped_axis then (value, s1)
    else
      let current_abs_accum := if s1.axis_snap_cross_axis_accum < 0 then
                                 i16 (-s1.axis_snap_cross_axis_accum)
                               else s1.axis_snap_cross_axis_accum
      let is_unsnapped := current_abs_accum ≥ (s1.axis_snap_threshold : ℤ)
      let acc1 := if is_unsnapped then
                    i16 (current_abs_accum + (if value > 0 then value else -value))
                  else i16 (s1.axis_snap_cross_axis_accum + value)
      let s2 := { s1 with axis_snap_cross_axis_accum := acc1,
                          axis_snap_last_decay_timestamp := now }
      let abs_accum := if s2.axis_snap_cross_axis_accum < 0 then
                         i16 (-s2.axis_snap_cross_axis_accum)
                       else s2.axis_snap_cross_axis_accum
      if abs_accum ≥ (s2.axis_snap_threshold : ℤ) then
        let capped :=
          if abs_accum > (s2.axis_snap_threshold : ℤ) * 2 then
            i16 ((if s2.axis_snap_cross_axis_accum > 0 then (s2.axis_snap_threshold : ℤ)
                  else -(s2.axis_snap_threshold : ℤ)) * 2)
          else s2.axis_snap_cross_axis_accum
        (value, { s2 with axis_snap_cross_axis_accum := capped })
      else (0, s2)
  else (value, s)

/-- Output of `runtime_processor_handle_event`: the pipeline verdict, the
updated state, the (possibly remapped and transformed) event, the updated
caller-owned scaling remainder, the keybind fire (if any), and whether
temp-layer activation / deactivation work was scheduled. -/
structure HandleOut where
  result : ProcResult
  st : State
  ev : Event
  remainder : Option ℤ
  fired : Option (ℤ × ℤ)
  activation_scheduled : Bool
  deactivation_scheduled : Bool
  deriving Repr, DecidableEq

/-- `runtime_processor_handle_event`: type gate, axis classification, layer
gate, keybind dispatch (consumes), code remap, temp-layer tickle, rotation,
axis invert, axis snap, scaling, temp-layer deactivation reschedule. -/
def runtime_processor_handle_event (cfg : Config) (env : Env) (s : State) (ev : Event)
    (now : ℤ) (remainder : Option ℤ) : HandleOut :=
  if ev.type != cfg.type then ⟨.continue, s, ev, remainder, none, false, false⟩
  else
    let x_found := code_matches ev.code cfg.x_codes
    let y_found := code_matches ev.code cfg.y_codes
    if !x_found && !y_found then ⟨.continue, s, ev, remainder, none, false, false⟩
    else if !(is_processor_active_for_current_layers env s.active_layers) then
      ⟨.continue, s, ev, remainder, none, false, false⟩
    else
      let is_x := x_found
      let kb := process_keybind cfg s is_x ev.value
      if kb.consumed then ⟨.stop, kb.st, ev, remainder, kb.fired, false, false⟩
      else
        let s1 := kb.st
        let ev1 := if s1.xy_to_scroll_enabled then
            { ev with code := if is_x then INPUT_REL_HWHEEL else INPUT_REL_WHEEL }
          else if s1.xy_swap_enabled then
            { ev with code := if is_x then INPUT_REL_Y else INPUT_REL_X }
          else ev
        let activation_scheduled := s1.temp_layer_enabled && ev1.value != 0 &&
            !s1.temp_layer_layer_active &&
            (s1.last_keypress_timestamp == 0 ||
             now - s1.last_keypress_timestamp ≥ (s1.temp_layer_activation_delay_ms : ℤ))
        let s2 := if s1.temp_layer_enabled && ev1.value != 0 then
            { s1 with last_input_timestamp := now }
          else s1
        let rot := if s2.rotation_degrees != 0 then rotation_stage s2 is_x ev1.value
                   else (ev1.value, s2)
        let v1 := rot.1
        let s3 := rot.2
        let v2 := if (is_x && s3.x_invert) || (!is_x && s3.y_invert) then i16 (-v1) else v1
        let snap := axis_snap_stage s3 is_x v2 now
        let v3 := snap.1
        let s4 := snap.2
        let scaled := if s4.scale_multiplier > 0 && s4.scale_divisor > 0 then
            scale_val v3 s4.scale_multiplier s4.scale_divisor remainder
          else (v3, remainder)
        let deactivation_scheduled := s4.temp_layer_enabled && s4.temp_layer_layer_active &&
            !s4.temp_layer_keep_active
        ⟨.continue, s4, { ev1 with value := scaled.1 }, scaled.2, none,
         activation_scheduled, deactivation_scheduled⟩

/-- Feed a list of events through the pipeline (fixed `now`, threading state
and the caller-owned remainder), collecting the emitted event values. -/
def run_values (cfg : Config) (env : Env) (now : ℤ) :
    State → Option ℤ → List Event → List ℤ
  | _, _, [] => []
  | s, rem, e :: es =>
    let o := runtime_processor_handle_event cfg env s e now rem
    o.ev.value :: run_values cfg env now o.st o.remainder es

/-- Result of a setter of the public control surface: `ok` is true iff the C
function returned 0 (false models `-EINVAL`), `st` is the device state after
the call, and `save` tells whether a debounced settings save was scheduled
(every setter schedules it only after the state update, and only when
`persistent` is set).  The `if (!dev) return -EINVAL;` guard of every setter
is outside the state model (a null device has no state to change). -/
structure SetRes where
  ok : Bool
  st : State
  save : Bool
  deriving Repr, DecidableEq

/-- `zmk_input_processor_runtime_set_scaling`: each component updates only
when positive; no validation error is ever returned. -/
def zmk_input_processor_runtime_set_scaling (s : State) (multiplier divisor : ℕ)
    (persistent : Bool) : SetRes :=
  let s1 := if multiplier > 0 then
      { s with scale_multiplier := multiplier,
               persistent_scale_multiplier :=
                 if persistent then multiplier else s.persistent_scale_multiplier }
    else s
  let s2 := if divisor > 0 then
      { s1 with scale_divisor := divisor,
                persistent_scale_divisor :=
                  if persistent then divisor else s1.persistent_scale_divisor }
    else s1
  ⟨true, s2, persistent⟩

/-- `zmk_input_processor_runtime_set_rotation`: store the angle and
recompute the fixed-point trig table. -/
noncomputable def zmk_input_processor_runtime_set_rotation (s : State) (degrees : ℤ)
    (persistent : Bool) : SetRes :=
  let s1 := { s with rotation_degrees := degrees,
                     persistent_rotation_degrees :=
                       if persistent then degrees else s.persistent_rotation_degrees }
  let rv := update_rotation_values s1.rotation_degrees
  ⟨true, { s1 with cos_val := rv.1, sin_val := rv.2 }, persistent⟩

/-- `zmk_input_processor_runtime_restore_persistent`: copy the persistent
values of scaling, rotation, axis snap, axis invert and keybind back over
the current ones, recompute the trig table, and clear the snap and keybind
runtime accumulators.  (Temp-layer settings, `active_layers` and the two
code-mapping flags are not touched by this function.) -/
noncomputable def zmk_input_processor_runtime_restore_persistent (s : State) : State :=
  let rv := update_rotation_values s.persistent_rotation_degrees
  { s with
    scale_multiplier := s.persistent_scale_multiplier,
    scale_divisor := s.persistent_scale_divisor,
    rotation_degrees := s.persistent_rotation_degrees,
    cos_val := rv.1,
    sin_val := rv.2,
    axis_snap_mode := s.persistent_axis_snap_mode,
    axis_snap_threshold := s.persistent_axis_snap_threshold,
    axis_snap_timeout_ms := s.persistent_axis_snap_timeout_ms,
    axis_snap_cross_axis_accum := 0,
    axis_snap_last_decay_timestamp := 0,
    x_invert := s.persistent_x_invert,
    y_invert := s.persistent_y_invert,
    keybind_enabled := s.persistent_keybind_enabled,
    keybind_behavior_count := s.persistent_keybind_behavior_count,
    keybind_degree_offset := s.persistent_keybind_degree_offset,
    keybind_tick := s.persistent_keybind_tick,
    keybind_x_accum := 0,
    keybind_y_accum := 0 }

/-- The public configuration view filled in by
`zmk_input_processor_runtime_get_config` (and used as the payload of the
state-changed observer event raised by `raise_state_changed_event`). -/
structure RuntimeConfigView where
  scale_multiplier : ℕ
  scale_divisor : ℕ
  rotation_degrees : ℤ
  temp_layer_enabled : Bool
  temp_layer_layer : ℕ
  temp_layer_activation_delay_ms : ℕ
  temp_layer_deactivation_delay_ms : ℕ
  active_layers : ℕ
  axis_snap_mode : ℕ
  axis_snap_threshold : ℕ
  axis_snap_timeout_ms : ℕ
  xy_to_scroll_enabled : Bool
  xy_swap_enabled : Bool
  x_invert : Bool
  y_invert : Bool
  keybind_enabled : Bool
  keybind_behavior_count : ℕ
  keybind_degree_offset : ℕ
  keybind_tick : ℕ
  deriving Repr, DecidableEq

/-- `zmk_input_processor_runtime_get_config`: every reported field is read
from the persistent view of the state. -/
def zmk_input_processor_runtime_get_config (s : State) : RuntimeConfigView :=
  { scale_multiplier := s.persistent_scale_multiplier,
    scale_divisor := s.persistent_scale_divisor,
    rotation_degrees := s.persistent_rotation_degrees,
    temp_layer_enabled := s.persistent_temp_layer_enabled,
    temp_layer_layer := s.persistent_temp_layer_layer,
    temp_layer_activation_delay_ms := s.persistent_temp_layer_activation_delay_ms,
    temp_layer_deactivation_delay_ms := s.persistent_temp_layer_deactivation_delay_ms,
    active_layers := s.persistent_active_layers,
    axis_snap_mode := s.persistent_axis_snap_mode,
    axis_snap_threshold := s.persistent_axis_snap_threshold,
    axis_snap_timeout_ms := s.persistent_axis_snap_timeout_ms,
    xy_to_scroll_enabled := s.persistent_xy_to_scroll_enabled,
    xy_swap_enabled := s.persistent_xy_swap_enabled,
    x_invert := s.persistent_x_invert,
    y_invert := s.persistent_y_invert,
    keybind_enabled := s.persistent_keybind_enabled,
    keybind_behavior_count := s.persistent_keybind_behavior_count,
    keybind_degree_offset := s.persistent_keybind_degree_offset,
    keybind_tick := s.persistent_keybind_tick }

/-- `zmk_input_processor_runtime_set_temp_layer` (all four fields). -/
def zmk_input_processor_runtime_set_temp_layer (s : State) (enabled : Bool) (layer : ℕ)
    (activation_delay_ms deactivation_delay_ms : ℕ) (persistent : Bool) : SetRes :=
  let s1 := { s with temp_layer_enabled := enabled,
                     temp_layer_layer := layer,
                     temp_layer_activation_delay_ms := activation_delay_ms,
                     temp_layer_deactivation_delay_ms := deactivation_delay_ms }
  let s2 := if persistent then
      { s1 with persistent_temp_layer_enabled := enabled,
                persistent_temp_layer_layer := layer,
                persistent_temp_layer_activation_delay_ms := activation_delay_ms,
                persistent_temp_layer_deactivation_delay_ms := deactivation_delay_ms }
    else s1
  ⟨true, s2, persistent⟩

/-- `zmk_input_processor_runtime_set_temp_layer_enabled`. -/
def zmk_input_processor_runtime_set_temp_layer_enabled (s : State) (enabled : Bool)
    (persistent : Bool) : SetRes :=
  ⟨true, { s with temp_layer_enabled := enabled,
                  persistent_temp_layer_enabled :=
                    if persistent then enabled else s.persistent_temp_layer_enabled },
   persistent⟩

/-- `zmk_input_processor_runtime_set_temp_layer_layer`. -/
def zmk_input_processor_runtime_set_temp_layer_layer (s : State) (layer : ℕ)
    (persistent : Bool) : SetRes :=
  ⟨true, { s with temp_layer_layer := layer,
                  persistent_temp_layer_layer :=
                    if persistent then layer else s.persistent_temp_layer_layer },
   persistent⟩

/-- `zmk_input_processor_runtime_set_temp_layer_activation_delay`. -/
def zmk_input_processor_runtime_set_temp_layer_activation_delay (s : State)
    (activation_delay_ms : ℕ) (persistent : Bool) : SetRes :=
  ⟨true, { s with temp_layer_activation_delay_ms := activation_delay_ms,
                  persistent_temp_layer_activation_delay_ms :=
                    if persistent then activation_delay_ms
                    else s.persistent_temp_layer_activation_delay_ms },
   persistent⟩

/-- `zmk_input_processor_runtime_set_temp_layer_deactivation_delay`. -/
def zmk_input_processor_runtime_set_temp_layer_deactivation_delay (s : State)
    (deactivation_delay_ms : ℕ) (persistent : Bool) : SetRes :=
  ⟨true, { s with temp_layer_deactivation_delay_ms := deactivation_delay_ms,
                  persistent_temp_layer_deactivation_delay_ms :=
                    if persistent then deactivation_delay_ms
                    else s.persistent_temp_layer_deactivation_delay_ms },
   persistent⟩

/-- `zmk_input_processor_runtime_set_active_layers`. -/
def zmk_input_processor_runtime_set_active_layers (s : State) (layers : ℕ)
    (persistent : Bool) : SetRes :=
  ⟨true, { s with active_layers := layers,
                  persistent_active_layers :=
                    if persistent then layers else s.persistent_active_layers },
   persistent⟩

/-- `zmk_input_processor_runtime_set_axis_snap_mode`: validates the mode,
then updates it and resets the snap accumulator. -/
def zmk_input_processor_runtime_set_axis_snap_mode (s : State) (mode : ℕ)
    (persistent : Bool) : SetRes :=
  if mode > AXIS_SNAP_MODE_Y then ⟨false, s, false⟩
  else
    ⟨true, { s with axis_snap_mode := mode,
                    axis_snap_cross_axis_accum := 0,
                    persistent_axis_snap_mode :=
                      if persistent then mode else s.persistent_axis_snap_mode },
     persistent⟩

/-- `zmk_input_processor_runtime_set_axis_snap_threshold` (no validation). -/
def zmk_input_processor_runtime_set_axis_snap_threshold (s : State) (threshold : ℕ)
    (persistent : Bool) : SetRes :=
  ⟨true, { s with axis_snap_threshold := threshold,
                  persistent_axis_snap_threshold :=
                    if persistent then threshold else s.persistent_axis_snap_threshold },
   persistent⟩

/-- `zmk_input_processor_runtime_set_axis_snap_timeout` (no validation). -/
def zmk_input_processor_runtime_set_axis_snap_timeout (s : State) (timeout_ms : ℕ)
    (persistent : Bool) : SetRes :=
  ⟨true, { s with axis_snap_timeout_ms := timeout_ms,
                  persistent_axis_snap_timeout_ms :=
                    if persistent then timeout_ms else s.persistent_axis_snap_timeout_ms },
   persistent⟩

/-- `zmk_input_processor_runtime_set_axis_snap` (all three fields):
validates the mode, then updates and resets the snap accumulator. -/
def zmk_input_processor_runtime_set_axis_snap (s : State) (mode threshold timeout_ms : ℕ)
    (persistent : Bool) : SetRes :=
  if mode > AXIS_SNAP_MODE_Y then ⟨false, s, false⟩
  else
    let s1 := { s with axis_snap_mode := mode,
                       axis_snap_threshold := threshold,
                       axis_snap_timeout_ms := timeout_ms,
                       axis_snap_cross_axis_accum := 0 }
    let s2 := if persistent then
        { s1 with persistent_axis_snap_mode := mode,
                  persistent_axis_snap_threshold := threshold,
                  persistent_axis_snap_timeout_ms := timeout_ms }
      else s1
    ⟨true, s2, persistent⟩

/-- `zmk_input_processor_runtime_set_x_invert`. -/
def zmk_input_processor_runtime_set_x_invert (s : State) (invert : Bool)
    (persistent : Bool) : SetRes :=
  ⟨true, { s with x_invert := invert,
                  persistent_x_invert := if persistent then invert else s.persistent_x_invert },
   persistent⟩

/-- `zmk_input_processor_runtime_set_y_invert`. -/
def zmk_input_processor_runtime_set_y_invert (s : State) (invert : Bool)
    (persistent : Bool) : SetRes :=
  ⟨true, { s with y_invert := invert,
                  persistent_y_invert := if persistent then invert else s.persistent_y_invert },
   persistent⟩

/-- `zmk_input_processor_runtime_set_keybind_enabled`. -/
def zmk_input_processor_runtime_set_keybind_enabled (s : State) (enabled : Bool)
    (persistent : Bool) : SetRes :=
  ⟨true, { s with keybind_enabled := enabled,
                  persistent_keybind_enabled :=
                    if persistent then enabled else s.persistent_keybind_enabled },
   persistent⟩

/-- `zmk_input_processor_runtime_set_keybind_behavior_count`: validates
`1 ≤ count ≤ MAX_KEYBIND_BEHAVIORS` first. -/
def zmk_input_processor_runtime_set_keybind_behavior_count (s : State) (count : ℕ)
    (persistent : Bool) : SetRes :=
  if count < 1 || count > MAX_KEYBIND_BEHAVIORS then ⟨false, s, false⟩
  else
    ⟨true, { s with keybind_behavior_count := count,
                    persistent_keybind_behavior_count :=
                      if persistent then count else s.persistent_keybind_behavior_count },
     persistent⟩

/-- `zmk_input_processor_runtime_set_keybind_degree_offset`: validates
`degree_offset < 360` first. -/
def zmk_input_processor_runtime_set_keybind_degree_offset (s : State) (degree_offset : ℕ)
    (persistent : Bool) : SetRes :=
  if degree_offset ≥ 360 then ⟨false, s, false⟩
  else
    ⟨true, { s with keybind_degree_offset := degree_offset,
                    persistent_keybind_degree_offset :=
                      if persistent then degree_offset else s.persistent_keybind_degree_offset },
     persistent⟩

/-- `zmk_input_processor_runtime_set_keybind_tick`: validates `tick ≠ 0`
first. -/
def zmk_input_processor_runtime_set_keybind_tick (s : State) (tick : ℕ)
    (persistent : Bool) : SetRes :=
  if tick == 0 then ⟨false, s, false⟩
  else
    ⟨true, { s with keybind_tick := tick,
                    persistent_keybind_tick :=
                      if persistent then tick else s.persistent_keybind_tick },
     persistent⟩

/-- `zmk_input_processor_runtime_set_xy_to_scroll_enabled`. -/
def zmk_input_processor_runtime_set_xy_to_scroll_enabled (s : State) (enabled : Bool)
    (persistent : Bool) : SetRes :=
  ⟨true, { s with xy_to_scroll_enabled := enabled,
                  persistent_xy_to_scroll_enabled :=
                    if persistent then enabled else s.persistent_xy_to_scroll_enabled },
   persistent⟩

/-- `zmk_input_processor_runtime_set_xy_swap_enabled`. -/
def zmk_input_processor_runtime_set_xy_swap_enabled (s : State) (enabled : Bool)
    (persistent : Bool) : SetRes :=
  ⟨true, { s with xy_swap_enabled := enabled,
                  persistent_xy_swap_enabled :=
                    if persistent then enabled else s.persistent_xy_swap_enabled },
   persistent⟩

/-- The `if (!dev) return -EINVAL;` guard shared by every public API
function: with no device the call fails and there is no state to update. -/
def apply_to_device (dev : Option State) (f : State → SetRes) : Bool × Option State :=
  match dev with
  | none => (false, none)
  | some s => ((f s).ok, some (f s).st)

/-- A device state as produced by `runtime_processor_init` from the
device-tree defaults of the binding (scale 1/1, rotation 0, temp layer off
with 100/500 ms delays, all layers, snap off with threshold 100 and timeout
1000, no remap or invert, keybind off with count 4, offset 0, tick 10). -/
def initState : State :=
  { scale_multiplier := 1, scale_divisor := 1, rotation_degrees := 0,
    persistent_scale_multiplier := 1, persistent_scale_divisor := 1,
    persistent_rotation_degrees := 0,
    cos_val := 1000, sin_val := 0,
    last_x := 0, last_y := 0, has_x := false, has_y := false,
    temp_layer_enabled := false, temp_layer_layer := 0,
    temp_layer_activation_delay_ms := 100, temp_layer_deactivation_delay_ms := 500,
    persistent_temp_layer_enabled := false, persistent_temp_layer_layer := 0,
    persistent_temp_layer_activation_delay_ms := 100,
    persistent_temp_layer_deactivation_delay_ms := 500,
    active_layers := 0, persistent_active_layers := 0,
    axis_snap_mode := 0, axis_snap_threshold := 100, axis_snap_timeout_ms := 1000,
    persistent_axis_snap_mode := 0, persistent_axis_snap_threshold := 100,
    persistent_axis_snap_timeout_ms := 1000,
    axis_snap_cross_axis_accum := 0, axis_snap_last_decay_timestamp := 0,
    xy_to_scroll_enabled := false, xy_swap_enabled := false,
    persistent_xy_to_scroll_enabled := false, persistent_xy_swap_enabled := false,
    x_invert := false, y_invert := false,
    persistent_x_invert := false, persistent_y_invert := false,
    keybind_enabled := false, keybind_behavior_count := 4,
    keybind_degree_offset := 0, keybind_tick := 10,
    persistent_keybind_enabled := false, persistent_keybind_behavior_count := 4,
    persistent_keybind_degree_offset := 0, persistent_keybind_tick := 10,
    keybind_x_accum := 0, keybind_y_accum := 0,
    temp_layer_layer_active := false, temp_layer_keep_active := false,
    last_input_timestamp := 0, last_keypress_timestamp := 0 }

/-- A relative-pointer configuration: type `EV_REL` (2), X code
`INPUT_REL_X`, Y code `INPUT_REL_Y`, four keybind behaviors. -/
def relCfg : Config :=
  { type := 2, x_codes := [INPUT_REL_X], y_codes := [INPUT_REL_Y],
    keybind_behaviors_len := 4 }

/-- A keymap environment with no active layer (irrelevant while the mask is
0, which gates the processor in unconditionally). -/
def quietEnv : Env := { layersLen := 4, layerIdxActive := fun _ => false }

/-- `initState` with keybind enabled (count 4, offset 0, tick 10). -/
def kbState : State := { initState with keybind_enabled := true }

/-- An X motion event of the given value. -/
def xEv (v : ℤ) : Event := { type := 2, code := INPUT_REL_X, value := v }

/-- A Y motion event of the given value. -/
def yEv (v : ℤ) : Event := { type := 2, code := INPUT_REL_Y, value := v }

/-- Helper: while keybind is enabled (with a nonzero behavior count and a
nonempty behavior list) `process_keybind` consumes the event, whether or not
the tick threshold fires. -/
theorem process_keybind_consumed (cfg : Config) (s : State) (is_x : Bool) (v : ℤ)
    (hen : s.keybind_enabled = true)
    (hcount : s.keybind_behavior_count ≠ 0)
    (hlen : cfg.keybind_behaviors_len ≠ 0) :
    (process_keybind cfg s is_x v).consumed = true := by
  unfold process_keybind
  have h1 : (!s.keybind_enabled || s.keybind_behavior_count == 0 ||
      cfg.keybind_behaviors_len == 0) = false := by
    simp [hen, hcount, hlen]
  rw [h1]
  simp only [Bool.false_eq_true, if_false]
  cases is_x <;> (simp only [Bool.false_eq_true, if_false, if_true]; split <;> rfl)

/-- C1: an event that passes the type gate, is classified as X or Y, and
passes the layer gate is consumed whenever keybind is enabled
(`keybind_enabled`, nonzero behavior count, nonempty behavior list):
`runtime_processor_handle_event` returns `ZMK_INPUT_PROC_STOP`, both below
the tick threshold and when a direction fires, so the event never reaches
the downstream. -/
theorem C1_keybind_consumes_event (cfg : Config) (env : Env) (s : State) (ev : Event)
    (now : ℤ) (rem : Option ℤ)
    (htype : ev.type = cfg.type)
    (hcode : code_matches ev.code cfg.x_codes = true ∨
             code_matches ev.code cfg.y_codes = true)
    (hlayer : is_processor_active_for_current_layers env s.active_layers = true)
    (hen : s.keybind_enabled = true)
    (hcount : s.keybind_behavior_count ≠ 0)
    (hlen : cfg.keybind_behaviors_len ≠ 0) :
    (runtime_processor_handle_event cfg env s ev now rem).result = ProcResult.stop := by
  unfold runtime_processor_handle_event
  have ht : (ev.type != cfg.type) = false := by simp [htype]
  rw [ht]
  have hcons : ∀ b, (process_keybind cfg s b ev.value).consumed = true := fun b =>
    process_keybind_consumed cfg s b ev.value hen hcount hlen
  rcases hcode with hx | hy
  · simp [hx, hlayer, hcons]
  · by_cases hx : code_matches ev.code cfg.x_codes <;>
      simp [hx, hy, hlayer, hcons]

/-- Witness for C1 at a concrete input: keybind enabled on `initState`
defaults, X event of value 3 (below the tick threshold) is stopped. -/
theorem C1_keybind_consumes_event_witness :
    (xEv 3).type = relCfg.type ∧
    code_matches (xEv 3).code relCfg.x_codes = true ∧
    is_processor_active_for_current_layers quietEnv kbState.active_layers = true ∧
    kbState.keybind_enabled = true ∧
    kbState.keybind_behavior_count ≠ 0 ∧
    relCfg.keybind_behaviors_len ≠ 0 ∧
    (runtime_processor_handle_event relCfg quietEnv kbState (xEv 3) 0 none).result =
      ProcResult.stop :=
  ⟨rfl, rfl, rfl, rfl, by decide, by decide,
   C1_keybind_consumes_event relCfg quietEnv kbState (xEv 3) 0 none rfl
     (Or.inl rfl) rfl rfl (by decide) (by decide)⟩

/-- Counterexample for C2: `active_layers` is one of the tunables that
`zmk_input_processor_runtime_restore_persistent` does NOT restore.  After
the temporary (non-persistent) call `set_active_layers(5, false)` on the
init state, restore leaves the current mask at 5 while the persistent mask
is still 0, so restore does not leave every current tunable equal to its
persistent counterpart. -/
theorem C2_restore_counterexample :
    (zmk_input_processor_runtime_restore_persistent
        (zmk_input_processor_runtime_set_active_layers initState 5 false).st).active_layers = 5 ∧
    (zmk_input_processor_runtime_restore_persistent
        (zmk_input_processor_runtime_set_active_layers initState 5 false).st).persistent_active_layers
      = 0 :=
  ⟨rfl, rfl⟩

/-- C2 (amended): for every state — hence after any sequence of temporary
setter calls — `restore_persistent` makes current equal persistent for the
scaling multiplier and divisor, rotation degrees, axis-snap mode, threshold
and timeout, x/y invert, and the four keybind settings, and it zeroes the
axis-snap cross-axis accumulator, its decay timestamp and the keybind x/y
accumulators; but it leaves the temp-layer settings, `active_layers`,
`xy_to_scroll` and `xy_swap` at their (possibly temporary) current values. -/
theorem C2_restore_persistent_amended (s : State) :
    (zmk_input_processor_runtime_restore_persistent s).scale_multiplier =
      (zmk_input_processor_runtime_restore_persistent s).persistent_scale_multiplier ∧
    (zmk_input_processor_runtime_restore_persistent s).scale_divisor =
      (zmk_input_processor_runtime_restore_persistent s).persistent_scale_divisor ∧
    (zmk_input_processor_runtime_restore_persistent s).rotation_degrees =
      (zmk_input_processor_runtime_restore_persistent s).persistent_rotation_degrees ∧
    (zmk_input_processor_runtime_restore_persistent s).axis_snap_mode =
      (zmk_input_processor_runtime_restore_persistent s).persistent_axis_snap_mode ∧
    (zmk_input_processor_runtime_restore_persistent s).axis_snap_threshold =
      (zmk_input_processor_runtime_restore_persistent s).persistent_axis_snap_threshold ∧
    (zmk_input_processor_runtime_restore_persistent s).axis_snap_timeout_ms =
      (zmk_input_processor_runtime_restore_persistent s).persistent_axis_snap_timeout_ms ∧
    (zmk_input_processor_runtime_restore_persistent s).x_invert =
      (zmk_input_processor_runtime_restore_persistent s).persistent_x_invert ∧
    (zmk_input_processor_runtime_restore_persistent s).y_invert =
      (zmk_input_processor_runtime_restore_persistent s).persistent_y_invert ∧
    (zmk_input_processor_runtime_restore_persistent s).keybind_enabled =
      (zmk_input_processor_runtime_restore_persistent s).persistent_keybind_enabled ∧
    (zmk_input_processor_runtime_restore_persistent s).keybind_behavior_count =
      (zmk_input_processor_runtime_restore_persistent s).persistent_keybind_behavior_count ∧
    (zmk_input_processor_runtime_restore_persistent s).keybind_degree_offset =
      (zmk_input_processor_runtime_restore_persistent s).persistent_keybind_degree_offset ∧
    (zmk_input_processor_runtime_restore_persistent s).keybind_tick =
      (zmk_input_processor_runtime_restore_persistent s).persistent_keybind_tick ∧
    (zmk_input_processor_runtime_restore_persistent s).axis_snap_cross_axis_accum = 0 ∧
    (zmk_input_processor_runtime_restore_persistent s).axis_snap_last_decay_timestamp = 0 ∧
    (zmk_input_processor_runtime_restore_persistent s).keybind_x_accum = 0 ∧
    (zmk_input_processor_runtime_restore_persistent s).keybind_y_accum = 0 ∧
    (zmk_input_processor_runtime_restore_persistent s).temp_layer_enabled = s.temp_layer_enabled ∧
    (zmk_input_processor_runtime_restore_persistent s).temp_layer_layer = s.temp_layer_layer ∧
    (zmk_input_processor_runtime_restore_persistent s).temp_layer_activation_delay_ms =
      s.temp_layer_activation_delay_ms ∧
    (zmk_input_processor_runtime_restore_persistent s).temp_layer_deactivation_delay_ms =
      s.temp_layer_deactivation_delay_ms ∧
    (zmk_input_processor_runtime_restore_persistent s).active_layers = s.active_layers ∧
    (zmk_input_processor_runtime_restore_persistent s).xy_to_scroll_enabled =
      s.xy_to_scroll_enabled ∧
    (zmk_input_processor_runtime_restore_persistent s).xy_swap_enabled = s.xy_swap_enabled :=
  ⟨rfl, rfl, rfl, rfl, rfl, rfl, rfl, rfl, rfl, rfl, rfl, rfl, rfl, rfl, rfl, rfl,
   rfl, rfl, rfl, rfl, rfl, rfl, rfl⟩

/-- C9: the validating setters of the control surface reject a null device,
a keybind behavior count outside `1..8`, a degree offset of `360` or more, a
zero tick, and an axis-snap mode above `AXIS_SNAP_MODE_Y` with `-EINVAL`
and, on rejection, leave the whole state — every current and persistent
tunable — unchanged and schedule no save; on success the returned state
carries the updated current value (and the persistent one exactly when
`persistent` is set), and the save is scheduled only then, i.e. only after
the update and only for persistent calls. -/
theorem C9_validating_setters (s : State) (p : Bool)
    (count degree_offset tick mode threshold timeout_ms : ℕ) :
    (∀ f : State → SetRes, apply_to_device none f = (false, none)) ∧
    ((count < 1 ∨ count > MAX_KEYBIND_BEHAVIORS) →
      zmk_input_processor_runtime_set_keybind_behavior_count s count p = ⟨false, s, false⟩) ∧
    (1 ≤ count → count ≤ MAX_KEYBIND_BEHAVIORS →
      zmk_input_processor_runtime_set_keybind_behavior_count s count p =
        ⟨true, { s with keybind_behavior_count := count,
                        persistent_keybind_behavior_count :=
                          if p then count else s.persistent_keybind_behavior_count }, p⟩) ∧
    (360 ≤ degree_offset →
      zmk_input_processor_runtime_set_keybind_degree_offset s degree_offset p =
        ⟨false, s, false⟩) ∧
    (degree_offset < 360 →
      zmk_input_processor_runtime_set_keybind_degree_offset s degree_offset p =
        ⟨true, { s with keybind_degree_offset := degree_offset,
                        persistent_keybind_degree_offset :=
                          if p then degree_offset else s.persistent_keybind_degree_offset }, p⟩) ∧
    (tick = 0 →
      zmk_input_processor_runtime_set_keybind_tick s tick p = ⟨false, s, false⟩) ∧
    (tick ≠ 0 →
      zmk_input_processor_runtime_set_keybind_tick s tick p =
        ⟨true, { s with keybind_tick := tick,
                        persistent_keybind_tick :=
                          if p then tick else s.persistent_keybind_tick }, p⟩) ∧
    (AXIS_SNAP_MODE_Y < mode →
      zmk_input_processor_runtime_set_axis_snap_mode s mode p = ⟨false, s, false⟩) ∧
    (mode ≤ AXIS_SNAP_MODE_Y →
      zmk_input_processor_runtime_set_axis_snap_mode s mode p =
        ⟨true, { s with axis_snap_mode := mode,
                        axis_snap_cross_axis_accum := 0,
                        persistent_axis_snap_mode :=
                          if p then mode else s.persistent_axis_snap_mode }, p⟩) ∧
    (AXIS_SNAP_MODE_Y < mode →
      zmk_input_processor_runtime_set_axis_snap s mode threshold timeout_ms p =
        ⟨false, s, false⟩) ∧
    (mode ≤ AXIS_SNAP_MODE_Y →
      zmk_input_processor_runtime_set_axis_snap s mode threshold timeout_ms p =
        ⟨true, { s with axis_snap_mode := mode,
                        axis_snap_threshold := threshold,
                        axis_snap_timeout_ms := timeout_ms,
                        axis_snap_cross_axis_accum := 0,
                        persistent_axis_snap_mode :=
                          if p then mode else s.persistent_axis_snap_mode,
                        persistent_axis_snap_threshold :=
                          if p then threshold else s.persistent_axis_snap_threshold,
                        persistent_axis_snap_timeout_ms :=
                          if p then timeout_ms else s.persistent_axis_snap_timeout_ms }, p⟩) := by
  refine ⟨fun f => rfl, ?_, ?_, ?_, ?_, ?_, ?_, ?_, ?_, ?_, ?_⟩
  · intro h
    have hc : (count < 1 || count > MAX_KEYBIND_BEHAVIORS) = true := by
      rcases h with h | h <;> simp [h]
    unfold zmk_input_processor_runtime_set_keybind_behavior_count
    rw [hc]
    rfl
  · intro h1 h2
    have hc : (count < 1 || count > MAX_KEYBIND_BEHAVIORS) = false := by
      simp only [Bool.or_eq_false_iff, decide_eq_false_iff_not, not_lt, gt_iff_lt]
      omega
    unfold zmk_input_processor_runtime_set_keybind_behavior_count
    rw [hc]
    rfl
  · intro h
    have hc : (degree_offset ≥ 360) = True := by simp [h]
    unfold zmk_input_processor_runtime_set_keybind_degree_offset
    simp only [hc, if_true]
  · intro h
    have hc : (degree_offset ≥ 360) = False := by simp [Nat.not_le.mpr h]
    unfold zmk_input_processor_runtime_set_keybind_degree_offset
    simp only [hc, if_false]
  · intro h
    have hc : (tick == 0) = true := by simp [h]
    unfold zmk_input_processor_runtime_set_keybind_tick
    rw [hc]
    rfl
  · intro h
    have hc : (tick == 0) = false := by simp [h]
    unfold zmk_input_processor_runtime_set_keybind_tick
    rw [hc]
    rfl
  · intro h
    have hc : (mode > AXIS_SNAP_MODE_Y) = True := by simp [h]
    unfold zmk_input_processor_runtime_set_axis_snap_mode
    simp only [hc, if_true]
  · intro h
    have hc : (mode > AXIS_SNAP_MODE_Y) = False := by simp [Nat.not_lt.mpr h]
    unfold zmk_input_processor_runtime_set_axis_snap_mode
    simp only [hc, if_false]
  · intro h
    have hc : (mode > AXIS_SNAP_MODE_Y) = True := by simp [h]
    unfold zmk_input_processor_runtime_set_axis_snap
    simp only [hc, if_true]
  · intro h
    have hc : (mode > AXIS_SNAP_MODE_Y) = False := by simp [Nat.not_lt.mpr h]
    unfold zmk_input_processor_runtime_set_axis_snap
    simp only [hc, if_false]
    cases p <;> rfl

/-- Witness for C9 at concrete inputs: on the init state, a zero tick and a
count of 9 are rejected with no state change; tick 25 with `persistent =
false` succeeds, updates the current tick only, and schedules no save. -/
theorem C9_validating_setters_witness :
    (zmk_input_processor_runtime_set_keybind_tick initState 0 true = ⟨false, initState, false⟩) ∧
    (zmk_input_processor_runtime_set_keybind_behavior_count initState 9 true =
      ⟨false, initState, false⟩) ∧
    (zmk_input_processor_runtime_set_keybind_tick initState 25 false =
      ⟨true, { initState with keybind_tick := 25,
                              persistent_keybind_tick :=
                                if false then 25 else initState.persistent_keybind_tick },
       false⟩) :=
  ⟨(C9_validating_setters initState true 9 0 0 0 0 0).2.2.2.2.2.1 rfl,
   (C9_validating_setters initState true 9 0 0 0 0 0).2.1 (Or.inr (by decide)),
   (C9_validating_setters initState false 9 0 25 0 0 0).2.2.2.2.2.2.1 (by decide)⟩

/-- C10: `zmk_input_processor_runtime_get_config` reports only the
persistent view, so after any temporary (`persistent = false`) setter the
reported configuration — and hence the payload `raise_state_changed_event`
would build from it — is unchanged, even though the current value driving
the pipeline did change (last conjunct: the temporary rotation setter
really updates the current `rotation_degrees`). -/
theorem C10_get_config_is_persistent_view (s : State) (multiplier divisor : ℕ)
    (degrees : ℤ) (enabled inv : Bool)
    (layer delay_a delay_d layers mode threshold timeout_ms count offset tick : ℕ) :
    zmk_input_processor_runtime_get_config
        (zmk_input_processor_runtime_set_scaling s multiplier divisor false).st =
      zmk_input_processor_runtime_get_config s ∧
    zmk_input_processor_runtime_get_config
        (zmk_input_processor_runtime_set_rotation s degrees false).st =
      zmk_input_processor_runtime_get_config s ∧
    zmk_input_processor_runtime_get_config
        (zmk_input_processor_runtime_set_temp_layer s enabled layer delay_a delay_d false).st =
      zmk_input_processor_runtime_get_config s ∧
    zmk_input_processor_runtime_get_config
        (zmk_input_processor_runtime_set_temp_layer_enabled s enabled false).st =
      zmk_input_processor_runtime_get_config s ∧
    zmk_input_processor_runtime_get_config
        (zmk_input_processor_runtime_set_temp_layer_layer s layer false).st =
      zmk_input_processor_runtime_get_config s ∧
    zmk_input_processor_runtime_get_config
        (zmk_input_processor_runtime_set_temp_layer_activation_delay s delay_a false).st =
      zmk_input_processor_runtime_get_config s ∧
    zmk_input_processor_runtime_get_config
        (zmk_input_processor_runtime_set_temp_layer_deactivation_delay s delay_d false).st =
      zmk_input_processor_runtime_get_config s ∧
    zmk_input_processor_runtime_get_config
        (zmk_input_processor_runtime_set_active_layers s layers false).st =
      zmk_input_processor_runtime_get_config s ∧
    zmk_input_processor_runtime_get_config
        (zmk_input_processor_runtime_set_axis_snap_mode s mode false).st =
      zmk_input_processor_runtime_get_config s ∧
    zmk_input_processor_runtime_get_config
        (zmk_input_processor_runtime_set_axis_snap_threshold s threshold false).st =
      zmk_input_processor_runtime_get_config s ∧
    zmk_input_processor_runtime_get_config
        (zmk_input_processor_runtime_set_axis_snap_timeout s timeout_ms false).st =
      zmk_input_processor_runtime_get_config s ∧
    zmk_input_processor_runtime_get_config
        (zmk_input_processor_runtime_set_axis_snap s mode threshold timeout_ms false).st =
      zmk_input_processor_runtime_get_config s ∧
    zmk_input_processor_runtime_get_config
        (zmk_input_processor_runtime_set_x_invert s inv false).st =
      zmk_input_processor_runtime_get_config s ∧
    zmk_input_processor_runtime_get_config
        (zmk_input_processor_runtime_set_y_invert s inv false).st =
      zmk_input_processor_runtime_get_config s ∧
    zmk_input_processor_runtime_get_config
        (zmk_input_processor_runtime_set_keybind_enabled s enabled false).st =
      zmk_input_processor_runtime_get_config s ∧
    zmk_input_processor_runtime_get_config
        (zmk_input_processor_runtime_set_keybind_behavior_count s count false).st =
      zmk_input_processor_runtime_get_config s ∧
    zmk_input_processor_runtime_get_config
        (zmk_input_processor_runtime_set_keybind_degree_offset s offset false).st =
      zmk_input_processor_runtime_get_config s ∧
    zmk_input_processor_runtime_get_config
        (zmk_input_processor_runtime_set_keybind_tick s tick false).st =
      zmk_input_processor_runtime_get_config s ∧
    zmk_input_processor_runtime_get_config
        (zmk_input_processor_runtime_set_xy_to_scroll_enabled s enabled false).st =
      zmk_input_processor_runtime_get_config s ∧
    zmk_input_processor_runtime_get_config
        (zmk_input_processor_runtime_set_xy_swap_enabled s enabled false).st =
      zmk_input_processor_runtime_get_config s ∧
    (zmk_input_processor_runtime_set_rotation s degrees false).st.rotation_degrees = degrees := by
  refine ⟨?_, rfl, rfl, rfl, rfl, rfl, rfl, rfl, ?_, rfl, rfl, ?_, rfl, rfl, rfl,
          ?_, ?_, ?_, rfl, rfl, rfl⟩
  · unfold zmk_input_processor_runtime_set_scaling
    simp only [Bool.false_eq_true, if_false]
    split <;> split <;> rfl
  · unfold zmk_input_processor_runtime_set_axis_snap_mode
    split <;> rfl
  · unfold zmk_input_processor_runtime_set_axis_snap
    split <;> rfl
  · unfold zmk_input_processor_runtime_set_keybind_behavior_count
    split <;> rfl
  · unfold zmk_input_processor_runtime_set_keybind_degree_offset
    split <;> rfl
  · unfold zmk_input_processor_runtime_set_keybind_tick
    split <;> rfl

/-- `initState` with axis snap locked to X (threshold 100, timeout 1000 are
already the defaults), the configuration of scenario 4 of the spec. -/
def snapState : State := { initState with axis_snap_mode := AXIS_SNAP_MODE_X }

/-- Counterexample for C3: with mode `SnapX`, threshold 100, timeout 1000
and rapid `(Y,10)` events, the TENTH event already passes through with
value 10 (the accumulator reaches `100 ≥ 100` on that very event, and the
lock check runs after the accumulator update), so it is not the case that
the first ten Y events are all emitted as 0. -/
theorem C3_axis_snap_tenth_counterexample :
    run_values relCfg quietEnv 0 snapState none (List.replicate 10 (yEv 10)) =
      [0, 0, 0, 0, 0, 0, 0, 0, 0, 10] ∧
    (run_values relCfg quietEnv 0 snapState none (List.replicate 10 (yEv 10)))[9]? ≠
      some 0 := by
  constructor <;> decide

/-- C3 (amended): with mode `SnapX`, threshold 100, timeout 1000 and eleven
rapid `(Y,10)` events, the first NINE are emitted as 0 and from the tenth
event (the one on which the accumulator reaches `|accum| = 100 ≥ 100`)
onward Y passes through unmodified. -/
theorem C3_axis_snap_release_amended :
    run_values relCfg quietEnv 0 snapState none (List.replicate 11 (yEv 10)) =
      [0, 0, 0, 0, 0, 0, 0, 0, 0, 10, 10] := by decide

/-- `initState` with scale 3/2, the configuration of scenario 1 of the
spec. -/
def scaleState : State :=
  { initState with scale_multiplier := 3, persistent_scale_multiplier := 3,
                   scale_divisor := 2, persistent_scale_divisor := 2 }

/-- C8: the concrete scenario holds — with `mul=3, div=2` and a shared
remainder starting at 0, inputs 3 then 5 are emitted as 4 (remainder 1)
then 8 (remainder 0), through the bare `scale_val` and through the whole
pipeline — but the general formula `out = (value·mul + remainder)/div`
breaks on the int16 intermediate: at the failing input `value = 11000,
mul = 3, div = 1, remainder = 0` the code emits `-32536` (the int16 wrap of
33000) instead of the formula's 33000. -/
theorem C8_scale_val_int16_wrap :
    scale_val 3 3 2 (some 0) = (4, some 1) ∧
    scale_val 5 3 2 (some 1) = (8, some 0) ∧
    run_values relCfg quietEnv 0 scaleState (some 0) [xEv 3, xEv 5] = [4, 8] ∧
    scale_val 11000 3 1 (some 0) = (-32536, some 0) ∧
    (11000 * 3 + 0) / 1 = (33000 : ℤ) := by
  refine ⟨by decide, by decide, by decide, by decide, by norm_num⟩

/-- The trig table computed for 90°: exactly `(0, 1000)` (shared helper). -/
theorem update_rotation_values_90 : update_rotation_values 90 = (0, 1000) := by
  unfold update_rotation_values truncz
  rw [if_neg (by decide)]
  have h90 : ((90 : ℤ) : ℝ) * Real.pi / 180 = Real.pi / 2 := by
    push_cast; ring
  rw [h90, Real.cos_pi_div_two, Real.sin_pi_div_two]
  norm_num

/-- `initState` with rotation 90° and the trig table the source precomputes
for it. -/
def rotState : State :=
  { initState with rotation_degrees := 90, persistent_rotation_degrees := 90,
                   cos_val := 0, sin_val := 1000 }

/-- C5: the rotation stage.  An X event records `last_x`/`has_x` and emits
`(last_x·cos − last_y·sin)/1000` if a Y value is pending (clearing `has_y`),
else 0; a Y event records `last_y`/`has_y` and emits
`(last_x·sin + last_y·cos)/1000` if an X value is pending (clearing
`has_x`), else 0.  The trig table for 90° is `(0, 1000)`, and concretely
with rotation 90° the input sequence `(X,5), (Y,7)` is emitted as
`(X,0), (Y,5)`. -/
theorem C5_rotation_stage (s : State) (v : ℤ) :
    rotation_stage s true v =
      (if s.has_y then i16 ((v * s.cos_val - s.last_y * s.sin_val).tdiv 1000) else 0,
       if s.has_y then { s with last_x := v, has_x := true, has_y := false }
       else { s with last_x := v, has_x := true }) ∧
    rotation_stage s false v =
      (if s.has_x then i16 ((s.last_x * s.sin_val + v * s.cos_val).tdiv 1000) else 0,
       if s.has_x then { s with last_y := v, has_y := true, has_x := false }
       else { s with last_y := v, has_y := true }) ∧
    update_rotation_values 90 = (0, 1000) ∧
    run_values relCfg quietEnv 0 rotState none [xEv 5, yEv 7] = [0, 5] := by
  refine ⟨?_, ?_, update_rotation_values_90, by decide⟩
  · cases hy : s.has_y <;> simp [rotation_stage, hy]
  · cases hx : s.has_x <;> simp [rotation_stage, hx]

/-- Evaluation of the direction selection once the angle is known: with the
raw angle `a` (degrees), its normalisation `θ` into `[0, 360)`, no overflow
past 360 after the offset and the half-segment shift, and more than one
behavior, the index is the centred floor of the shifted angle. -/
theorem keybind_direction_eval (count offset : ℕ) (x y : ℤ) (a θ : ℝ)
    (ha : atan2 (y : ℤ) (x : ℤ) * 180 / Real.pi = a)
    (hnorm : (if a < 0 then a + 360 else a) = θ)
    (hoff : θ + (offset : ℝ) < 360)
    (hcount : count ≠ 1)
    (hadj : θ + (offset : ℝ) + (360 / (count : ℝ)) / 2 < 360) :
    keybind_direction count offset x y =
      (Nat.floor ((θ + (offset : ℝ) + (360 / (count : ℝ)) / 2) / (360 / (count : ℝ)))) %
        count := by
  simp only [keybind_direction]
  rw [ha, hnorm, if_neg (not_le.mpr hoff), if_neg hcount, if_neg (not_le.mpr hadj)]

/-- Direction of accumulated `(10, 0)` with 4 behaviors, offset 0. -/
theorem keybind_dir_east : keybind_direction 4 0 10 0 = 0 := by
  have ha : atan2 ((0:ℤ) : ℝ) ((10:ℤ) : ℝ) * 180 / Real.pi = 0 := by
    unfold atan2
    rw [if_pos (by norm_num)]
    rw [show ((0:ℤ):ℝ) / ((10:ℤ):ℝ) = 0 by norm_num, Real.arctan_zero]
    norm_num
  have hf : (⌊(1:ℝ)/2⌋₊) = 0 := Nat.floor_eq_zero.mpr (by norm_num)
  rw [keybind_direction_eval 4 0 10 0 0 0 ha (by norm_num) (by norm_num)
    (by norm_num) (by norm_num)]
  norm_num [hf]

/-- Direction of accumulated `(0, 10)` with 4 behaviors, offset 0. -/
theorem keybind_dir_north : keybind_direction 4 0 0 10 = 1 := by
  have hpi := Real.pi_pos
  have ha : atan2 ((10:ℤ) : ℝ) ((0:ℤ) : ℝ) * 180 / Real.pi = 90 := by
    unfold atan2
    rw [if_neg (by norm_num), if_neg (by norm_num), if_pos (by norm_num)]
    field_simp
    ring
  have hf : (⌊(3:ℝ)/2⌋₊) = 1 := by
    rw [Nat.floor_eq_iff (by norm_num)]; norm_num
  rw [keybind_direction_eval 4 0 0 10 90 90 ha (by norm_num) (by norm_num)
    (by norm_num) (by norm_num)]
  norm_num [hf]

/-- Direction of accumulated `(-10, 0)` with 4 behaviors, offset 0. -/
theorem keybind_dir_west : keybind_direction 4 0 (-10) 0 = 2 := by
  have hpi := Real.pi_pos
  have ha : atan2 ((0:ℤ) : ℝ) ((-10:ℤ) : ℝ) * 180 / Real.pi = 180 := by
    unfold atan2
    rw [if_neg (by norm_num), if_pos (by norm_num), if_pos (by norm_num)]
    rw [show ((0:ℤ):ℝ) / ((-10:ℤ):ℝ) = 0 by norm_num, Real.arctan_zero]
    field_simp
  have hf : (⌊(5:ℝ)/2⌋₊) = 2 := by
    rw [Nat.floor_eq_iff (by norm_num)]; norm_num
  rw [keybind_direction_eval 4 0 (-10) 0 180 180 ha (by norm_num) (by norm_num)
    (by norm_num) (by norm_num)]
  norm_num [hf]

/-- Direction of accumulated `(0, -10)` with 4 behaviors, offset 0. -/
theorem keybind_dir_south : keybind_direction 4 0 0 (-10) = 3 := by
  have hpi := Real.pi_pos
  have ha : atan2 ((-10:ℤ) : ℝ) ((0:ℤ) : ℝ) * 180 / Real.pi = -90 := by
    unfold atan2
    rw [if_neg (by norm_num), if_neg (by norm_num), if_neg (by norm_num),
      if_pos (by norm_num)]
    field_simp
    ring
  have hf : (⌊(7:ℝ)/2⌋₊) = 3 := by
    rw [Nat.floor_eq_iff (by norm_num)]; norm_num
  rw [keybind_direction_eval 4 0 0 (-10) (-90) 270 ha (by norm_num) (by norm_num)
    (by norm_num) (by norm_num)]
  norm_num [hf]

/-- Direction of accumulated `(10, 10)` with 4 behaviors, offset 45: the
angle is 45°, the offset takes it to 90°, the half-segment shift to 135°,
and `⌊135/90⌋ mod 4 = 1`. -/
theorem keybind_dir_diag_offset45 : keybind_direction 4 45 10 10 = 1 := by
  have hpi := Real.pi_pos
  have ha : atan2 ((10:ℤ) : ℝ) ((10:ℤ) : ℝ) * 180 / Real.pi = 45 := by
    unfold atan2
    rw [if_pos (by norm_num)]
    rw [show ((10:ℤ):ℝ) / ((10:ℤ):ℝ) = 1 by norm_num, Real.arctan_one]
    field_simp
    ring
  have hf : (⌊(3:ℝ)/2⌋₊) = 1 := by
    rw [Nat.floor_eq_iff (by norm_num)]; norm_num
  rw [keybind_direction_eval 4 45 10 10 45 45 ha (by norm_num) (by norm_num)
    (by norm_num) (by norm_num)]
  norm_num [hf]

/-- Direction of accumulated `(6, 8)` with 4 behaviors, offset 0: the angle
`atan2(8,6) ≈ 53°` lies in `(45°, 90°)`, so the centred floor picks 1. -/
theorem keybind_dir_6_8 : keybind_direction 4 0 6 8 = 1 := by
  have hpi := Real.pi_pos
  have hax : atan2 ((8:ℤ) : ℝ) ((6:ℤ) : ℝ) = Real.arctan (4/3) := by
    unfold atan2
    rw [if_pos (by norm_num)]
    norm_num
  have ha1 : Real.pi/4 < Real.arctan (4/3) := by
    have h := Real.arctan_strictMono (show (1:ℝ) < 4/3 by norm_num)
    rwa [Real.arctan_one] at h
  have ha2 : Real.arctan (4/3) < Real.pi/2 := Real.arctan_lt_pi_div_two _
  have hb1 : (45:ℝ) < Real.arctan (4/3) * 180 / Real.pi := by
    rw [lt_div_iff₀ hpi]; nlinarith
  have hb2 : Real.arctan (4/3) * 180 / Real.pi < 90 := by
    rw [div_lt_iff₀ hpi]; nlinarith
  have hfl : ⌊(Real.arctan (4/3) * 180 / Real.pi + ((0:ℕ):ℝ) +
      (360 / ((4:ℕ):ℝ)) / 2) / (360 / ((4:ℕ):ℝ))⌋₊ = 1 := by
    rw [Nat.floor_eq_iff (by push_cast; positivity)]
    push_cast
    constructor
    · rw [le_div_iff₀ (by norm_num : (0:ℝ) < 360/4)]
      linarith
    · rw [div_lt_iff₀ (by norm_num : (0:ℝ) < 360/4)]
      linarith
  rw [keybind_direction_eval 4 0 6 8 (Real.arctan (4/3) * 180 / Real.pi)
    (Real.arctan (4/3) * 180 / Real.pi) (by rw [hax])
    (if_neg (not_lt.mpr (by linarith))) (by push_cast; linarith) (by norm_num)
    (by push_cast; linarith), hfl]

/-- C6: with keybind enabled, k=4 effective behaviors, offset 0 and tick 10,
the accumulated vectors `(10,0)`, `(0,10)`, `(-10,0)`, `(0,-10)` select
behavior indices 0, 1, 2, 3; and the event sequence `(X,6), (Y,8)` stays
below the threshold on the first event, fires on the second with
accumulators `(6,8)` (since `36 + 64 = 100 ≥ 100`), whose angle
`atan2(8,6) ≈ 53°` selects index 1. -/
theorem C6_keybind_direction_math :
    effective_behavior_count relCfg kbState = 4 ∧
    keybind_direction 4 0 10 0 = 0 ∧
    keybind_direction 4 0 0 10 = 1 ∧
    keybind_direction 4 0 (-10) 0 = 2 ∧
    keybind_direction 4 0 0 (-10) = 3 ∧
    (process_keybind relCfg kbState true 6).consumed = true ∧
    (process_keybind relCfg kbState true 6).fired = none ∧
    (process_keybind relCfg (process_keybind relCfg kbState true 6).st false 8).fired =
      some (6, 8) ∧
    keybind_direction 4 0 6 8 = 1 :=
  ⟨by decide, keybind_dir_east, keybind_dir_north, keybind_dir_west, keybind_dir_south,
   by decide, by decide, by decide, keybind_dir_6_8⟩

/-- `kbState` with degree offset 45 and the X accumulator already at 10, so
that a `(Y,10)` event takes the accumulators to `(10,10)`. -/
def kb45State : State :=
  { kbState with keybind_degree_offset := 45, keybind_x_accum := 10 }

/-- Counterexample for C4: with k=4, offset=45, tick=10 and the
accumulators reaching `(10,10)` (the fire condition `100+100 ≥ 100` is met
and `process_keybind` fires on exactly that pair), the dispatcher selects
behavior index 1 — `(45° + 45°) = 90°`, plus the half-segment 45° gives
`⌊135/90⌋ = 1` — not index 0 as claimed. -/
theorem C4_offset45_counterexample :
    (process_keybind relCfg kb45State false 10).fired = some (10, 10) ∧
    keybind_direction 4 45 10 10 ≠ 0 :=
  ⟨by decide, by rw [keybind_dir_diag_offset45]; decide⟩

/-- C4 (amended): with k=4, offset=45, tick=10 and the accumulators
reaching `(10,10)`, the fire threshold is met, the accumulators reset, and
the dispatcher selects and fires behavior index 1. -/
theorem C4_offset45_fires_index_one :
    (process_keybind relCfg kb45State false 10).consumed = true ∧
    (process_keybind relCfg kb45State false 10).fired = some (10, 10) ∧
    (process_keybind relCfg kb45State false 10).st.keybind_x_accum = 0 ∧
    (process_keybind relCfg kb45State false 10).st.keybind_y_accum = 0 ∧
    effective_behavior_count relCfg kb45State = 4 ∧
    keybind_direction 4 45 10 10 = 1 :=
  ⟨by decide, by decide, by decide, by decide, by decide, keybind_dir_diag_offset45⟩

/-- `tmod` negates with its dividend (C `%` follows the dividend's sign). -/
theorem tmod_neg_left (a b : ℤ) : (-a).tmod b = -(a.tmod b) := by
  rw [Int.tmod_def, Int.tmod_def, Int.neg_tdiv]
  ring

/-- The C remainder is strictly smaller than the divisor in magnitude. -/
theorem tmod_abs_le (a : ℤ) {b : ℤ} (hb : 0 < b) : |a.tmod b| ≤ b - 1 := by
  rcases le_or_lt 0 a with ha | ha
  · have h1 := Int.tmod_nonneg b ha
    have h2 := Int.tmod_lt_of_pos a hb
    rw [abs_of_nonneg h1]
    omega
  · have h0 : (0:ℤ) ≤ -a := by omega
    have h1 := Int.tmod_nonneg b h0
    have h2 := Int.tmod_lt_of_pos (-a) hb
    rw [tmod_neg_left] at h1 h2
    rw [abs_of_nonpos (by omega)]
    omega

/-- Storing an in-range value into an `int16_t` does not change it. -/
theorem i16_eq_self {z : ℤ} (h1 : -32768 ≤ z) (h2 : z ≤ 32767) : i16 z = z := by
  unfold i16
  rw [Int.emod_eq_of_lt (by omega) (by omega)]
  omega

/-- Truncation towards zero never grows the square. -/
theorem truncz_sq_le (x : ℝ) : ((truncz x : ℤ) : ℝ) ^ 2 ≤ x ^ 2 := by
  unfold truncz
  split
  · rename_i h
    have h1 : (0:ℝ) ≤ ((⌊x⌋ : ℤ) : ℝ) := by exact_mod_cast Int.floor_nonneg.mpr h
    have h2 : ((⌊x⌋ : ℤ) : ℝ) ≤ x := Int.floor_le x
    nlinarith
  · rename_i h
    have hx : x < 0 := lt_of_not_ge h
    have h1 : (0:ℝ) ≤ ((⌊-x⌋ : ℤ) : ℝ) := by
      exact_mod_cast Int.floor_nonneg.mpr (by linarith)
    have h2 : ((⌊-x⌋ : ℤ) : ℝ) ≤ -x := Int.floor_le (-x)
    push_cast
    nlinarith

/-- Truncation towards zero is odd. -/
theorem truncz_neg (x : ℝ) : truncz (-x) = -(truncz x) := by
  unfold truncz
  rcases lt_trichotomy x 0 with h | h | h
  · rw [if_pos (by linarith), if_neg (by linarith)]
    simp
  · simp [h]
  · rw [if_neg (by linarith), if_pos (by linarith)]
    simp

/-- The matched-pair transform of the rotation stage (source lines 510–511
and 524–525): `((x·c − y·s)/1000, (x·s + y·c)/1000)` with truncating
division and the `int16_t` store of `event->value`. -/
def rotXY (c s x y : ℤ) : ℤ × ℤ :=
  (i16 ((x * c - y * s).tdiv 1000), i16 ((x * s + y * c).tdiv 1000))

/-- Rotate a matched pair by the table `(c, s)` and then by the table of
the opposite angle, which is `(c, -s)` (cosine is even, sine and the
truncation are odd). -/
def rotation_round_trip (c s x y : ℤ) : ℤ × ℤ :=
  rotXY c (-s) (rotXY c s x y).1 (rotXY c s x y).2

/-- The trig table computed for 45°: `(707, 707)` (`⌊500·√2⌋ = 707`),
matching the double-precision computation of the source. -/
theorem update_rotation_values_45 : update_rotation_values 45 = (707, 707) := by
  have h45 : ((45 : ℤ) : ℝ) * Real.pi / 180 = Real.pi / 4 := by push_cast; ring
  have h1 : (707/500 : ℝ) ≤ Real.sqrt 2 := (Real.le_sqrt' (by norm_num)).mpr (by norm_num)
  have h2 : Real.sqrt 2 < 708/500 := (Real.sqrt_lt' (by norm_num)).mpr (by norm_num)
  have hfloor : ⌊Real.sqrt 2 / 2 * 1000⌋ = 707 := by
    rw [show Real.sqrt 2 / 2 * 1000 = 500 * Real.sqrt 2 by ring, Int.floor_eq_iff]
    push_cast
    constructor <;> linarith
  unfold update_rotation_values truncz
  rw [if_neg (by decide), h45, Real.cos_pi_div_four, Real.sin_pi_div_four]
  rw [if_pos (by positivity), hfloor]

/-- Counterexample for C7: with θ = 45° (table `(707, 707)`), the matched
pair `(-499, -498)` — both components within 500 — round-trips to
`(-497, -497)`, an error of 2 on the X component (the claim allows 1), and
the pair `(32000, 0)` round-trips to `(31990, 0)`, an error of 10 (the
claim allows 2 for `|v| ≤ 32000`). -/
theorem C7_round_trip_counterexample :
    update_rotation_values 45 = (707, 707) ∧
    rotation_round_trip 707 707 (-499) (-498) = (-497, -497) ∧
    ¬(|(-497 : ℤ) - (-499)| ≤ 1) ∧
    rotation_round_trip 707 707 32000 0 = (31990, 0) ∧
    ¬(|(31990 : ℤ) - 32000| ≤ 2) :=
  ⟨update_rotation_values_45, by decide, by decide, by decide, by decide⟩

/-- Core error-bound algebra of the two-stage fixed-point round trip: if
`q1, q2` are the quotients of the first rotation (remainders `r1, r2`) and
`q3` the quotient of the second-stage X component (remainder `r3`), then
`q3` misses `x` by at most the quantization deficit of the trig table plus
the accumulated division remainders, all scaled by `10⁶`. -/
theorem round_trip_core (c s x y q1 q2 r1 r2 q3 r3 : ℤ)
    (hcs : c ^ 2 + s ^ 2 ≤ 1000000)
    (e1 : 1000 * q1 + r1 = x * c - y * s)
    (e2 : 1000 * q2 + r2 = x * s + y * c)
    (e3 : 1000 * q3 + r3 = q1 * c + q2 * s)
    (hr1 : |r1| ≤ 999) (hr2 : |r2| ≤ 999) (hr3 : |r3| ≤ 999) :
    1000000 * |q3 - x| ≤ |x| * (1000000 - c ^ 2 - s ^ 2) + 999 * (|c| + |s|) + 999000 := by
  have hD : (0:ℤ) ≤ 1000000 - c ^ 2 - s ^ 2 := by linarith
  have hkey : 1000000 * (q3 - x) =
      -(x * (1000000 - c ^ 2 - s ^ 2)) - r1 * c - r2 * s - 1000 * r3 := by
    linear_combination 1000 * e3 + c * e1 + s * e2
  calc 1000000 * |q3 - x| = |1000000 * (q3 - x)| := by
        rw [abs_mul]
        norm_num
    _ = |(-(x * (1000000 - c ^ 2 - s ^ 2)) - r1 * c - r2 * s - 1000 * r3)| := by rw [hkey]
    _ ≤ |(-(x * (1000000 - c ^ 2 - s ^ 2)) - r1 * c - r2 * s)| + |1000 * r3| := abs_sub _ _
    _ ≤ |(-(x * (1000000 - c ^ 2 - s ^ 2)) - r1 * c)| + |r2 * s| + |1000 * r3| := by
        have h := abs_sub (-(x * (1000000 - c ^ 2 - s ^ 2)) - r1 * c) (r2 * s)
        linarith
    _ ≤ |x * (1000000 - c ^ 2 - s ^ 2)| + |r1 * c| + |r2 * s| + |1000 * r3| := by
        have h := abs_sub (-(x * (1000000 - c ^ 2 - s ^ 2))) (r1 * c)
        rw [abs_neg] at h
        linarith
    _ ≤ |x| * (1000000 - c ^ 2 - s ^ 2) + 999 * |c| + 999 * |s| + 999000 := by
        have h1 : |x * (1000000 - c ^ 2 - s ^ 2)| = |x| * (1000000 - c ^ 2 - s ^ 2) := by
          rw [abs_mul, abs_of_nonneg hD]
        have h2 : |r1 * c| ≤ 999 * |c| := by
          rw [abs_mul]
          exact mul_le_mul_of_nonneg_right hr1 (abs_nonneg c)
        have h3 : |r2 * s| ≤ 999 * |s| := by
          rw [abs_mul]
          exact mul_le_mul_of_nonneg_right hr2 (abs_nonneg s)
        have h4 : |1000 * r3| ≤ 999000 := by
          rw [abs_mul, show |(1000:ℤ)| = 1000 by decide]
          linarith
        linarith
    _ = |x| * (1000000 - c ^ 2 - s ^ 2) + 999 * (|c| + |s|) + 999000 := by ring

/-- The two-stage round trip through the rotation stage's fixed-point pair
transform: both components return to the original within the quantization
bound, provided the trig table satisfies `c² + s² ≤ 10⁶` (which
`update_rotation_values` guarantees) and the inputs avoid int16 overflow. -/
theorem rotation_round_trip_error (c s x y : ℤ)
    (hcs : c ^ 2 + s ^ 2 ≤ 1000000) (hx16 : |x| ≤ 16000) (hy16 : |y| ≤ 16000) :
    1000000 * |(rotation_round_trip c s x y).1 - x| ≤
      |x| * (1000000 - c ^ 2 - s ^ 2) + 999 * (|c| + |s|) + 999000 ∧
    1000000 * |(rotation_round_trip c s x y).2 - y| ≤
      |y| * (1000000 - c ^ 2 - s ^ 2) + 999 * (|c| + |s|) + 999000 := by
  have hb : (0:ℤ) < 1000 := by norm_num
  have hc : |c| ≤ 1000 := by
    nlinarith [sq_nonneg s, sq_nonneg (|c| - 1000), sq_abs c, abs_nonneg c]
  have hs1 : |s| ≤ 1000 := by
    nlinarith [sq_nonneg c, sq_nonneg (|s| - 1000), sq_abs s, abs_nonneg s]
  obtain ⟨q1, hq1⟩ : ∃ q, (x * c - y * s).tdiv 1000 = q := ⟨_, rfl⟩
  obtain ⟨r1, hr1e⟩ : ∃ r, (x * c - y * s).tmod 1000 = r := ⟨_, rfl⟩
  obtain ⟨q2, hq2⟩ : ∃ q, (x * s + y * c).tdiv 1000 = q := ⟨_, rfl⟩
  obtain ⟨r2, hr2e⟩ : ∃ r, (x * s + y * c).tmod 1000 = r := ⟨_, rfl⟩
  have e1 : 1000 * q1 + r1 = x * c - y * s := by
    rw [← hq1, ← hr1e]; exact Int.tdiv_add_tmod _ _
  have e2 : 1000 * q2 + r2 = x * s + y * c := by
    rw [← hq2, ← hr2e]; exact Int.tdiv_add_tmod _ _
  have hr1 : |r1| ≤ 999 := by
    rw [← hr1e]
    have h := tmod_abs_le (x * c - y * s) hb
    norm_num at h
    exact h
  have hr2 : |r2| ≤ 999 := by
    rw [← hr2e]
    have h := tmod_abs_le (x * s + y * c) hb
    norm_num at h
    exact h
  have hxc : |x * c| ≤ 16000000 := by
    rw [abs_mul]
    calc |x| * |c| ≤ 16000 * 1000 := mul_le_mul hx16 hc (abs_nonneg c) (by norm_num)
      _ = 16000000 := by norm_num
  have hys : |y * s| ≤ 16000000 := by
    rw [abs_mul]
    calc |y| * |s| ≤ 16000 * 1000 := mul_le_mul hy16 hs1 (abs_nonneg s) (by norm_num)
      _ = 16000000 := by norm_num
  have hxs : |x * s| ≤ 16000000 := by
    rw [abs_mul]
    calc |x| * |s| ≤ 16000 * 1000 := mul_le_mul hx16 hs1 (abs_nonneg s) (by norm_num)
      _ = 16000000 := by norm_num
  have hyc : |y * c| ≤ 16000000 := by
    rw [abs_mul]
    calc |y| * |c| ≤ 16000 * 1000 := mul_le_mul hy16 hc (abs_nonneg c) (by norm_num)
      _ = 16000000 := by norm_num
  have hq1b : |q1| ≤ 32001 := by
    have h1 : 1000 * q1 = (x * c - y * s) - r1 := by linarith [e1]
    have h2 : |1000 * q1| ≤ 32000999 := by
      rw [h1]
      calc |(x * c - y * s) - r1| ≤ |x * c - y * s| + |r1| := abs_sub _ _
        _ ≤ (|x * c| + |y * s|) + 999 := by
            have h := abs_sub (x * c) (y * s)
            linarith
        _ ≤ 32000999 := by linarith
    rw [abs_mul, show |(1000:ℤ)| = 1000 by decide] at h2
    obtain ⟨u, hu⟩ : ∃ u, |q1| = u := ⟨_, rfl⟩
    rw [hu] at h2 ⊢
    omega
  have hq2b : |q2| ≤ 32001 := by
    have h1 : 1000 * q2 = (x * s + y * c) - r2 := by linarith [e2]
    have h2 : |1000 * q2| ≤ 32000999 := by
      rw [h1]
      calc |(x * s + y * c) - r2| ≤ |x * s + y * c| + |r2| := abs_sub _ _
        _ ≤ (|x * s| + |y * c|) + 999 := by
            have h := abs_add (x * s) (y * c)
            linarith
        _ ≤ 32000999 := by linarith
    rw [abs_mul, show |(1000:ℤ)| = 1000 by decide] at h2
    obtain ⟨u, hu⟩ : ∃ u, |q2| = u := ⟨_, rfl⟩
    rw [hu] at h2 ⊢
    omega
  have hi16q1 : i16 ((x * c - y * s).tdiv 1000) = q1 := by
    rw [hq1]
    exact i16_eq_self (by linarith [(abs_le.mp hq1b).1]) (by linarith [(abs_le.mp hq1b).2])
  have hi16q2 : i16 ((x * s + y * c).tdiv 1000) = q2 := by
    rw [hq2]
    exact i16_eq_self (by linarith [(abs_le.mp hq2b).1]) (by linarith [(abs_le.mp hq2b).2])
  obtain ⟨q3, hq3⟩ : ∃ q, (q1 * c + q2 * s).tdiv 1000 = q := ⟨_, rfl⟩
  obtain ⟨r3, hr3e⟩ : ∃ r, (q1 * c + q2 * s).tmod 1000 = r := ⟨_, rfl⟩
  obtain ⟨q4, hq4⟩ : ∃ q, (q1 * -s + q2 * c).tdiv 1000 = q := ⟨_, rfl⟩
  obtain ⟨r4, hr4e⟩ : ∃ r, (q1 * -s + q2 * c).tmod 1000 = r := ⟨_, rfl⟩
  have e3 : 1000 * q3 + r3 = q1 * c + q2 * s := by
    rw [← hq3, ← hr3e]; exact Int.tdiv_add_tmod _ _
  have e4 : 1000 * q4 + r4 = q1 * -s + q2 * c := by
    rw [← hq4, ← hr4e]; exact Int.tdiv_add_tmod _ _
  have hr3 : |r3| ≤ 999 := by
    rw [← hr3e]
    have h := tmod_abs_le (q1 * c + q2 * s) hb
    norm_num at h
    exact h
  have hr4 : |r4| ≤ 999 := by
    rw [← hr4e]
    have h := tmod_abs_le (q1 * -s + q2 * c) hb
    linarith [h]
  have hcore1 : 1000000 * |q3 - x| ≤
      |x| * (1000000 - c ^ 2 - s ^ 2) + 999 * (|c| + |s|) + 999000 :=
    round_trip_core c s x y q1 q2 r1 r2 q3 r3 hcs e1 e2 e3 hr1 hr2 hr3
  have hcore2 : 1000000 * |q4 - y| ≤
      |y| * (1000000 - c ^ 2 - s ^ 2) + 999 * (|c| + |s|) + 999000 := by
    have h := round_trip_core c (-s) y x q2 q1 r2 r1 q4 r4
      (by rw [neg_sq]; exact hcs)
      (by linear_combination e2) (by linear_combination e1) (by linear_combination e4)
      hr2 hr1 hr4
    rwa [neg_sq, abs_neg] at h
  have hDle : 1000000 - c ^ 2 - s ^ 2 ≤ 1000000 := by nlinarith [sq_nonneg c, sq_nonneg s]
  have hD0 : (0:ℤ) ≤ 1000000 - c ^ 2 - s ^ 2 := by linarith
  have hxD : |x| * (1000000 - c ^ 2 - s ^ 2) ≤ 16000000000 := by
    calc |x| * (1000000 - c ^ 2 - s ^ 2) ≤ 16000 * 1000000 :=
          mul_le_mul hx16 hDle hD0 (by norm_num)
      _ = 16000000000 := by norm_num
  have hyD : |y| * (1000000 - c ^ 2 - s ^ 2) ≤ 16000000000 := by
    calc |y| * (1000000 - c ^ 2 - s ^ 2) ≤ 16000 * 1000000 :=
          mul_le_mul hy16 hDle hD0 (by norm_num)
      _ = 16000000000 := by norm_num
  have hq3d : |q3 - x| ≤ 16003 := by
    have h2 : 1000000 * |q3 - x| ≤ 16002997000 := by linarith
    obtain ⟨u, hu⟩ : ∃ u, |q3 - x| = u := ⟨_, rfl⟩
    rw [hu] at h2 ⊢
    omega
  have hq4d : |q4 - y| ≤ 16003 := by
    have h2 : 1000000 * |q4 - y| ≤ 16002997000 := by linarith
    obtain ⟨u, hu⟩ : ∃ u, |q4 - y| = u := ⟨_, rfl⟩
    rw [hu] at h2 ⊢
    omega
  have hq3b : |q3| ≤ 32003 := by
    calc |q3| = |(q3 - x) + x| := by ring_nf
      _ ≤ |q3 - x| + |x| := abs_add _ _
      _ ≤ 32003 := by linarith
  have hq4b : |q4| ≤ 32003 := by
    calc |q4| = |(q4 - y) + y| := by ring_nf
      _ ≤ |q4 - y| + |y| := abs_add _ _
      _ ≤ 32003 := by linarith
  have hfold1 : (rotation_round_trip c s x y).1 = q3 := by
    unfold rotation_round_trip rotXY
    simp only
    rw [hi16q1, hi16q2,
      show q1 * c - q2 * -s = q1 * c + q2 * s from by ring, hq3]
    exact i16_eq_self (by linarith [(abs_le.mp hq3b).1]) (by linarith [(abs_le.mp hq3b).2])
  have hfold2 : (rotation_round_trip c s x y).2 = q4 := by
    unfold rotation_round_trip rotXY
    simp only
    rw [hi16q1, hi16q2, hq4]
    exact i16_eq_self (by linarith [(abs_le.mp hq4b).1]) (by linarith [(abs_le.mp hq4b).2])
  rw [hfold1, hfold2]
  exact ⟨hcore1, hcore2⟩

/-- The precomputed trig table always satisfies `c² + s² ≤ 10⁶`: truncation
towards zero never grows the magnitudes of `cos·1000` and `sin·1000`. -/
theorem update_rotation_values_sq_le (d : ℤ) :
    (update_rotation_values d).1 ^ 2 + (update_rotation_values d).2 ^ 2 ≤ 1000000 := by
  unfold update_rotation_values
  split
  · norm_num
  · have h1 := truncz_sq_le (Real.cos ((d : ℝ) * Real.pi / 180) * 1000)
    have h2 := truncz_sq_le (Real.sin ((d : ℝ) * Real.pi / 180) * 1000)
    have h3 := Real.sin_sq_add_cos_sq ((d : ℝ) * Real.pi / 180)
    have hcast :
        ((truncz (Real.cos ((d : ℝ) * Real.pi / 180) * 1000) ^ 2 +
          truncz (Real.sin ((d : ℝ) * Real.pi / 180) * 1000) ^ 2 : ℤ) : ℝ) ≤
          ((1000000 : ℤ) : ℝ) := by
      push_cast
      nlinarith [h1, h2, h3]
    exact_mod_cast hcast

/-- Negating the angle flips only the sine entry of the table (cosine is
even, sine and the truncation are odd), so rotating by `-θ` uses `(c, -s)`. -/
theorem update_rotation_values_neg (d : ℤ) :
    update_rotation_values (-d) =
      ((update_rotation_values d).1, -(update_rotation_values d).2) := by
  by_cases hd : d = 0
  · subst hd
    norm_num [update_rotation_values]
  · unfold update_rotation_values
    rw [if_neg (by omega : ¬(-d = 0)), if_neg hd]
    have hang : ((-d : ℤ) : ℝ) * Real.pi / 180 = -((d : ℝ) * Real.pi / 180) := by
      push_cast
      ring
    rw [hang, Real.cos_neg, Real.sin_neg,
      show -Real.sin ((d : ℝ) * Real.pi / 180) * 1000 =
        -(Real.sin ((d : ℝ) * Real.pi / 180) * 1000) from by ring, truncz_neg]

/-- C7 (amended): the fixed bounds of the claim do not hold (see the
counterexample); what the code guarantees is the quantization bound
`10⁶·|roundtrip(v) − v| ≤ |v|·(10⁶ − c² − s²) + 999·(|c| + |s|) + 999000`
for both components, for every trig table produced by
`update_rotation_values` (which always satisfies `c² + s² ≤ 10⁶`, the table
of `−θ` being `(c, −s)`), whenever the inputs avoid int16 overflow
(`|v| ≤ 16000`); and the pair transform `rotXY` is exactly what the
rotation stage emits on a paired axis. -/
theorem C7_round_trip_quantization_bound :
    (∀ d : ℤ, (update_rotation_values d).1 ^ 2 + (update_rotation_values d).2 ^ 2 ≤ 1000000) ∧
    (∀ d : ℤ, update_rotation_values (-d) =
      ((update_rotation_values d).1, -(update_rotation_values d).2)) ∧
    (∀ c s x y : ℤ, c ^ 2 + s ^ 2 ≤ 1000000 → |x| ≤ 16000 → |y| ≤ 16000 →
      1000000 * |(rotation_round_trip c s x y).1 - x| ≤
        |x| * (1000000 - c ^ 2 - s ^ 2) + 999 * (|c| + |s|) + 999000 ∧
      1000000 * |(rotation_round_trip c s x y).2 - y| ≤
        |y| * (1000000 - c ^ 2 - s ^ 2) + 999 * (|c| + |s|) + 999000) ∧
    (∀ (st : State) (v : ℤ),
      (rotation_stage st true v).1 =
        (if st.has_y then (rotXY st.cos_val st.sin_val v st.last_y).1 else 0) ∧
      (rotation_stage st false v).1 =
        (if st.has_x then (rotXY st.cos_val st.sin_val st.last_x v).2 else 0)) := by
  refine ⟨update_rotation_values_sq_le, update_rotation_values_neg,
    rotation_round_trip_error, ?_⟩
  intro st v
  constructor
  · cases hy : st.has_y <;> simp [rotation_stage, rotXY, hy]
  · cases hx : st.has_x <;> simp [rotation_stage, rotXY, hx]

/-- Witness for C7 (amended) at the concrete table `(1000, 0)` (θ = 0) and
the matched pair `(5, 7)`. -/
theorem C7_round_trip_quantization_bound_witness :
    ((1000:ℤ) ^ 2 + (0:ℤ) ^ 2 ≤ 1000000 ∧ |(5:ℤ)| ≤ 16000 ∧ |(7:ℤ)| ≤ 16000) ∧
    (1000000 * |(rotation_round_trip 1000 0 5 7).1 - 5| ≤
      |(5:ℤ)| * (1000000 - 1000 ^ 2 - 0 ^ 2) + 999 * (|(1000:ℤ)| + |(0:ℤ)|) + 999000 ∧
     1000000 * |(rotation_round_trip 1000 0 5 7).2 - 7| ≤
      |(7:ℤ)| * (1000000 - 1000 ^ 2 - 0 ^ 2) + 999 * (|(1000:ℤ)| + |(0:ℤ)|) + 999000) :=
  ⟨⟨by decide, by decide, by decide⟩,
   C7_round_trip_quantization_bound.2.2.1 1000 0 5 7 (by decide) (by decide) (by decide)⟩
